import Mathlib

/-!
Verification of `wayland-random-wallpaper` (`src/main.rs`).

The program is a single-shot utility: it scans a wallpaper directory for image
files, excludes the previously used wallpaper (whose full path string is stored
in a single-slot cache file), draws one of the remaining candidates uniformly at
random, invokes the external change command, and on success overwrites the cache
with the selected path and sends a notification.

Shallow embedding conventions:
- Paths and file contents are UTF-8 `String`s (so `to_string_lossy` and
  `OsStr::to_str` are the identity).
- The filesystem facts a run consumes are explicit parameters: the directory
  listing is a `List DirEntry` (name + regular-file flag), the cache file state
  is an `Option String` (`none` = file absent), and I/O failures are Boolean
  flags.
- The external change command's behaviour is an `ExecOutcome` parameter; the
  random draw of `rand_distr::Uniform::new(0, len)` is a `Nat` parameter whose
  membership in `[0, len)` is the proposition `uniform_support`.
- A `tracing_unwrap` panic (process abort) is modelled by a dedicated `fatal`
  constructor or by `Option.none` where noted.
-/

/-- `APP_NAME` constant from `main.rs`. -/
def APP_NAME : String := "Random Wallpaper"

/-- `EXPIRE_TIME` constant from `main.rs` (milliseconds). -/
def EXPIRE_TIME : Int := 3000

/-- `i32::MAX`, the timeout used for sticky notifications. -/
def I32_MAX : Int := 2147483647

/-- One entry of the scanned directory, as observed by `fs::read_dir`: its file
name (never empty, never `"."` or `".."`, never containing a separator — see
`validEntryName`) and whether `path.is_file()` holds. -/
structure DirEntry where
  name : String
  isFile : Bool
  deriving DecidableEq, Repr

/-- `DirEntry::path()`: the scanned directory path joined with the entry's file
name. -/
def entryPath (dir : String) (e : DirEntry) : String :=
  dir ++ "/" ++ e.name

/-- The names `fs::read_dir` can produce for an entry: nonempty, not the special
components `"."`/`".."`, and free of the path separator. -/
def validEntryName (s : String) : Prop :=
  s ≠ "" ∧ s ≠ "." ∧ s ≠ ".." ∧ '/' ∉ s.data

instance (s : String) : Decidable (validEntryName s) := by
  unfold validEntryName; infer_instance

/-- Rust `Path::file_name`, modelled on path strings: drop trailing separators,
take the final component, and return `none` when that component is empty,
`"."` or `".."` (the cases where Rust yields no file name). -/
def fileName? (p : String) : Option String :=
  let comp :=
    ((p.data.reverse.dropWhile (fun c => c == '/')).takeWhile
      (fun c => c != '/')).reverse
  if comp = [] ∨ comp = ['.'] ∨ comp = ['.', '.'] then none
  else some (String.mk comp)

/-- Rust `Path::extension`: `none` when there is no file name, when the file
name has no `.`, or when its only `.` is a leading one; otherwise the portion
of the file name after the final `.`. -/
def extension? (p : String) : Option String :=
  match fileName? p with
  | none => none
  | some name =>
    let ext := name.data.reverse.takeWhile (fun c => c != '.')
    if ext.length = name.data.length then none
    else if name.data.head? = some '.' ∧ ext.length + 1 = name.data.length then
      none
    else some (String.mk ext.reverse)

/-- `is_image` (`main.rs:107-117`): the extension is exactly one of the
lowercase strings `jpg`, `jpeg`, `png`, `gif`, `bmp`. (`OsStr::to_str` is the
identity on our UTF-8 strings, so the `Some(...)` patterns match iff the
extension exists and equals one of the literals.) -/
def is_image (path : String) : Bool :=
  match extension? path with
  | some ext =>
      ext == "jpg" || ext == "jpeg" || ext == "png" || ext == "gif" ||
        ext == "bmp"
  | none => false

/-- `get_possible_wallpapers` (`main.rs:83-104`) after a successful
`fs::read_dir`: keep the regular-file entries' paths, keep images, then drop
the path equal to the previously used wallpaper string. (`Path` equality on
paths of this shape coincides with string equality.) -/
def get_possible_wallpapers (previous_wallpaper : String) (dir : String)
    (entries : List DirEntry) : List String :=
  (((entries.filter (fun e => e.isFile)).map (entryPath dir)).filter
      (fun file_path => is_image file_path)).filter
    (fun file_path => file_path != previous_wallpaper)

/-- The spec's "directory listing D of qualifying images": the scan filtered by
the image-extension check, before the previous-selection exclusion. This is the
first two stages of `get_possible_wallpapers`. -/
def qualifying_images (dir : String) (entries : List DirEntry) : List String :=
  ((entries.filter (fun e => e.isFile)).map (entryPath dir)).filter
    (fun file_path => is_image file_path)

/-- Result of reading the cache: either a value or a fatal abort
(`expect_or_log` panic). -/
inductive ReadResult where
  | fatal
  | value (s : String)
  deriving DecidableEq, Repr

/-- `get_previously_used_wallpaper` (`main.rs:64-74`). `cacheState` is the
cache file's contents (`none` = the file does not exist). `openFails` models
`File::open` failing on an existing file (e.g. permission denied) — the
`if let Ok` swallows it and the empty string is returned, exactly as for a
missing file. `readFails` models `read_to_string` failing after a successful
open — `expect_or_log` aborts the run. -/
def get_previously_used_wallpaper (cacheState : Option String)
    (openFails readFails : Bool) : ReadResult :=
  match cacheState with
  | none => .value ""
  | some contents =>
    if openFails then .value ""
    else if readFails then .fatal
    else .value contents

/-- `update_cache` (`main.rs:165-173`): `File::create` truncates or creates the
cache file and `write_all` stores exactly the selected path's UTF-8 bytes; the
result is the new cache file state. -/
def update_cache (file_path : String) : Option String :=
  some file_path

/-- `k` is a possible draw of `Uniform::new(0, n)` (half-open range). -/
def uniform_support (n k : Nat) : Prop := k < n

/-- `choose_random_wallpaper` (`main.rs:120-123`): index the pool at the
sampled value; `none` models the out-of-bounds indexing panic (unreachable
whenever the sample lies in the uniform support). -/
def choose_random_wallpaper (possible_wallpapers : List String)
    (sample : Nat) : Option String :=
  possible_wallpapers.get? sample

/-- `get_file_name` (`main.rs:126-134`): `Path::file_name`, where `none` models
the `expect_or_log` fatal branch. -/
def get_file_name (selected_file : String) : Option String :=
  fileName? selected_file

/-- A desktop notification as built by `send_notification`
(`main.rs:176-194`). -/
structure Notification where
  summary : String
  body : String
  icon : String
  timeout : Int
  resident : Bool
  deriving DecidableEq, Repr

/-- `send_notification`: summary is `APP_NAME`; timeout is `EXPIRE_TIME`,
overridden to `i32::MAX` with the `Resident` hint when sticky. (A failure of
`show()` is only logged and is not modelled.) -/
def send_notification (body icon : String) (sticky : Bool) : Notification :=
  { summary := APP_NAME
    body := body
    icon := icon
    timeout := if sticky then I32_MAX else EXPIRE_TIME
    resident := sticky }

/-- `send_wallpaper_changed_notification` (`main.rs:197-203`): body is the
selected file's name, icon is its path, not sticky. `none` propagates the
`get_file_name` fatal branch. -/
def send_wallpaper_changed_notification (selected_file : String) :
    Option Notification :=
  (get_file_name selected_file).map fun name =>
    send_notification name selected_file false

/-- Outcome of `execute_wallpaper_changer`: the spawn itself can fail
(`expect_or_log` aborts), otherwise the child exits with a success flag. -/
inductive ExecOutcome where
  | spawnFailed
  | exited (success : Bool)
  deriving DecidableEq, Repr

/-- Result of `apply_new_wallpaper`: either a fatal abort (recording the cache
state at abort time) or normal return with the final cache state and the
notification sent, if any. -/
inductive ApplyResult where
  | fatal (cacheAfter : Option String)
  | done (cacheAfter : Option String) (changed : Option Notification)
  deriving DecidableEq, Repr

/-- The cache file state an `ApplyResult` leaves behind. -/
def cacheAfter : ApplyResult → Option String
  | .fatal c => c
  | .done c _ => c

/-- `apply_new_wallpaper` (`main.rs:137-149`): on a successful exit status the
cache is overwritten with the selected path and the "changed" notification is
sent (in that order — the cache write precedes the notification); on a
non-success exit status nothing happens; a spawn failure aborts. -/
def apply_new_wallpaper (outcome : ExecOutcome) (cache : Option String)
    (selected_file : String) : ApplyResult :=
  match outcome with
  | .spawnFailed => .fatal cache
  | .exited false => .done cache none
  | .exited true =>
    match send_wallpaper_changed_notification selected_file with
    | none => .fatal (update_cache selected_file)
    | some n => .done (update_cache selected_file) (some n)

/-- Result of one whole run of `main`: a fatal abort (panic, non-zero exit) or
a normal exit-0 completion with the notifications sent and the final cache
file state. -/
inductive RunResult where
  | fatal
  | exit0 (notifications : List Notification) (finalCache : Option String)
  deriving DecidableEq, Repr

/-- Process exit code of a run: panics exit non-zero (Rust uses 101), normal
completion exits 0. -/
def exit_code : RunResult → Nat
  | .fatal => 101
  | .exit0 _ _ => 0

/-- `main` (`main.rs:205-227`) on a readable wallpaper directory: read the
cache, compute the candidate pool, and either send the sticky "no images"
warning and return, or pick the sampled candidate and apply it. -/
def main_run (cacheState : Option String) (openFails readFails : Bool)
    (dir : String) (entries : List DirEntry) (sample : Nat)
    (outcome : ExecOutcome) : RunResult :=
  match get_previously_used_wallpaper cacheState openFails readFails with
  | .fatal => .fatal
  | .value previous_wallpaper =>
    let possible_wallpapers := get_possible_wallpapers previous_wallpaper dir entries
    if possible_wallpapers.isEmpty then
      .exit0 [send_notification ("No images found in " ++ dir) "dialog-warning" true]
        cacheState
    else
      match choose_random_wallpaper possible_wallpapers sample with
      | none => .fatal
      | some selected_file =>
        match apply_new_wallpaper outcome cacheState selected_file with
        | .fatal _ => .fatal
        | .done cache notif => .exit0 notif.toList cache

/-! ## Helper lemmas -/

/-- A path produced by joining a directory with an entry name is never the
empty string. -/
theorem entryPath_ne_empty (dir : String) (e : DirEntry) :
    entryPath dir e ≠ "" := by
  intro h
  have hlen := congrArg String.length h
  rw [entryPath, String.length_append, String.length_append] at hlen
  have h1 : ("/" : String).length = 1 := rfl
  have h0 : ("" : String).length = 0 := rfl
  omega

/-- The candidate pool is the qualifying listing filtered by inequality with
the previous selection (definitional). -/
theorem get_possible_eq_filter (previous_wallpaper dir : String)
    (entries : List DirEntry) :
    get_possible_wallpapers previous_wallpaper dir entries =
      (qualifying_images dir entries).filter
        (fun file_path => file_path != previous_wallpaper) := rfl

/-- The previous selection never survives the exclusion filter. -/
theorem not_mem_get_possible (previous_wallpaper dir : String)
    (entries : List DirEntry) :
    previous_wallpaper ∉ get_possible_wallpapers previous_wallpaper dir entries := by
  intro hmem
  have h := List.of_mem_filter hmem
  simp at h

/-- Every qualifying image is the path of a regular-file entry of the listing
and passes the image-extension check. -/
theorem mem_qualifying_images {dir : String} {entries : List DirEntry}
    {p : String} (hp : p ∈ qualifying_images dir entries) :
    ∃ e ∈ entries, e.isFile = true ∧ p = entryPath dir e ∧ is_image p = true := by
  unfold qualifying_images at hp
  rw [List.mem_filter] at hp
  obtain ⟨hmap, himg⟩ := hp
  rw [List.mem_map] at hmap
  obtain ⟨e, he, rfl⟩ := hmap
  rw [List.mem_filter] at he
  exact ⟨e, he.1, he.2, rfl, himg⟩

/-! ## Claims -/

/-- C1: Exclusion correctness — for any directory listing and any
previous-selection string, the candidate pool never contains the previous
selection, and (when the qualifying listing has no duplicates) the pool is
exactly the qualifying listing minus that single element. -/
theorem C1_exclusion_correctness (previous_wallpaper dir : String)
    (entries : List DirEntry)
    (hnd : (qualifying_images dir entries).Nodup) :
    previous_wallpaper ∉ get_possible_wallpapers previous_wallpaper dir entries ∧
    get_possible_wallpapers previous_wallpaper dir entries =
      (qualifying_images dir entries).erase previous_wallpaper := by
  refine ⟨not_mem_get_possible _ _ _, ?_⟩
  rw [get_possible_eq_filter, List.Nodup.erase_eq_filter hnd]

theorem C1_witness :
    (qualifying_images "/w" [⟨"a.png", true⟩, ⟨"b.png", true⟩]).Nodup ∧
    ("/w/a.png" ∉
        get_possible_wallpapers "/w/a.png" "/w" [⟨"a.png", true⟩, ⟨"b.png", true⟩] ∧
      get_possible_wallpapers "/w/a.png" "/w" [⟨"a.png", true⟩, ⟨"b.png", true⟩] =
        (qualifying_images "/w" [⟨"a.png", true⟩, ⟨"b.png", true⟩]).erase "/w/a.png") :=
  ⟨by decide,
    C1_exclusion_correctness "/w/a.png" "/w" [⟨"a.png", true⟩, ⟨"b.png", true⟩]
      (by decide)⟩

/-- C2: Representation consistency — a successful apply leaves the cache equal
to the selected path's full string, a later error-free read returns that same
string, and the exclusion filter (which compares full path strings) then
removes it from the next run's pool. -/
theorem C2_representation_consistency (selected_file dir : String)
    (cache : Option String) (entries : List DirEntry) :
    cacheAfter (apply_new_wallpaper (.exited true) cache selected_file) =
      some selected_file ∧
    get_previously_used_wallpaper (some selected_file) false false =
      .value selected_file ∧
    selected_file ∉ get_possible_wallpapers selected_file dir entries := by
  refine ⟨?_, rfl, not_mem_get_possible _ _ _⟩
  cases h : send_wallpaper_changed_notification selected_file with
  | none => simp [apply_new_wallpaper, h, cacheAfter, update_cache]
  | some n => simp [apply_new_wallpaper, h, cacheAfter, update_cache]

/-- C5: Qualifying-image filter — every pool member is the path of a
regular-file entry and passes `is_image`; files with a non-listed extension,
no extension, or an uppercase variant are excluded, while the five lowercase
extensions are accepted. -/
theorem C5_qualifying_filter (previous_wallpaper dir : String)
    (entries : List DirEntry) :
    (∀ p ∈ get_possible_wallpapers previous_wallpaper dir entries,
      ∃ e ∈ entries, e.isFile = true ∧ p = entryPath dir e ∧ is_image p = true) ∧
    is_image "a.txt" = false ∧ is_image "b" = false ∧ is_image "c.PNG" = false ∧
    is_image "x.jpg" = true ∧ is_image "x.jpeg" = true ∧
    is_image "x.png" = true ∧ is_image "x.gif" = true ∧
    is_image "x.bmp" = true := by
  refine ⟨fun p hp => ?_, by decide, by decide, by decide, by decide, by decide,
    by decide, by decide, by decide⟩
  exact mem_qualifying_images (List.mem_of_mem_filter hp)

theorem C5_witness :
    ("/w/a.png" ∈ get_possible_wallpapers "" "/w" [⟨"a.png", true⟩]) ∧
    ∃ e ∈ [DirEntry.mk "a.png" true],
      e.isFile = true ∧ "/w/a.png" = entryPath "/w" e ∧
        is_image "/w/a.png" = true :=
  ⟨by decide,
    (C5_qualifying_filter "" "/w" [⟨"a.png", true⟩]).1 "/w/a.png" (by decide)⟩

/-- C6: Memory round-trip — writing a value with `update_cache` and reading it
back with no intervening write and no I/O failure yields exactly that value
(the write stores exactly the string's UTF-8 bytes). -/
theorem C6_memory_round_trip (v : String) :
    update_cache v = some v ∧
    get_previously_used_wallpaper (update_cache v) false false = .value v :=
  ⟨rfl, rfl⟩

/-- C7: Missing memory file — a non-existent cache file reads as the empty
string, and with an empty previous selection the exclusion filter removes
nothing: the pool equals the full qualifying listing. -/
theorem C7_missing_memory (dir : String) (entries : List DirEntry)
    (openFails readFails : Bool) :
    get_previously_used_wallpaper none openFails readFails = .value "" ∧
    get_possible_wallpapers "" dir entries = qualifying_images dir entries := by
  refine ⟨rfl, ?_⟩
  rw [get_possible_eq_filter]
  refine List.filter_eq_self.mpr fun p hp => ?_
  obtain ⟨e, _, _, rfl, _⟩ := mem_qualifying_images hp
  simpa [bne_iff_ne] using entryPath_ne_empty dir e

/-- C8 counterexample: an existing cache file that cannot be opened (an I/O
error on `File::open` distinct from non-existence) does not abort the run —
the `if let Ok` swallows the error and the read returns the empty string. -/
theorem C8_counterexample :
    get_previously_used_wallpaper (some "sunset.png") true false = .value "" ∧
    get_previously_used_wallpaper (some "sunset.png") true false ≠ .fatal :=
  ⟨rfl, by decide⟩

/-- C8 (amended): an I/O error while reading an already-opened existing cache
file is fatal, but when the existing file cannot even be opened the open error
is swallowed and the read returns the empty string, exactly as for a missing
file. -/
theorem C8_read_failure_behaviour (contents : String) :
    get_previously_used_wallpaper (some contents) false true = .fatal ∧
    get_previously_used_wallpaper (some contents) true false = .value "" ∧
    get_previously_used_wallpaper (some contents) true true = .value "" :=
  ⟨rfl, rfl, rfl⟩

/-- An error-free cache read returns the file's contents, or the empty string
when the file is absent. -/
theorem read_ok (cache : Option String) :
    get_previously_used_wallpaper cache false false = .value (cache.getD "") := by
  cases cache <;> rfl

/-- A run with an error-free cache read and an in-bounds sample reduces to the
apply step on the sampled pool element. -/
theorem main_run_pick (cache : Option String) (dir : String)
    (entries : List DirEntry) (sample : Nat) (outcome : ExecOutcome)
    (hs : sample < (get_possible_wallpapers (cache.getD "") dir entries).length) :
    main_run cache false false dir entries sample outcome =
      match apply_new_wallpaper outcome cache
          ((get_possible_wallpapers (cache.getD "") dir entries).get ⟨sample, hs⟩) with
      | .fatal _ => .fatal
      | .done c notif => .exit0 notif.toList c := by
  have hie : (get_possible_wallpapers (cache.getD "") dir entries).isEmpty = false := by
    cases hp : get_possible_wallpapers (cache.getD "") dir entries with
    | nil => rw [hp] at hs; simp at hs
    | cons a l => rfl
  unfold main_run
  rw [read_ok]
  dsimp only
  rw [hie]
  dsimp only [choose_random_wallpaper]
  rw [List.get?_eq_get hs]
  rfl

/-- A run with an error-free cache read and an empty candidate pool sends the
sticky warning and exits normally with the cache untouched. -/
theorem main_run_empty (cache : Option String) (dir : String)
    (entries : List DirEntry) (sample : Nat) (outcome : ExecOutcome)
    (he : get_possible_wallpapers (cache.getD "") dir entries = []) :
    main_run cache false false dir entries sample outcome =
      .exit0 [send_notification ("No images found in " ++ dir) "dialog-warning" true]
        cache := by
  unfold main_run
  rw [read_ok]
  dsimp only
  rw [he]
  rfl

/-- C3: Failed apply leaves memory untouched — a non-success exit status of
the change command leaves the cache exactly as it was, sends no "changed"
notification, and the run still completes normally (exit 0). -/
theorem C3_failed_apply (cache : Option String) (dir : String)
    (entries : List DirEntry) (sample : Nat)
    (hs : sample < (get_possible_wallpapers (cache.getD "") dir entries).length) :
    (∀ selected_file,
      apply_new_wallpaper (.exited false) cache selected_file = .done cache none) ∧
    main_run cache false false dir entries sample (.exited false) =
      .exit0 [] cache ∧
    exit_code (main_run cache false false dir entries sample (.exited false)) = 0 := by
  refine ⟨fun selected_file => rfl, ?_, ?_⟩ <;>
    · rw [main_run_pick cache dir entries sample (.exited false) hs]
      rfl

theorem C3_witness :
    0 < (get_possible_wallpapers "" "/w" [⟨"b.png", true⟩]).length ∧
    ((∀ selected_file,
        apply_new_wallpaper (.exited false) none selected_file = .done none none) ∧
      main_run none false false "/w" [⟨"b.png", true⟩] 0 (.exited false) =
        .exit0 [] none ∧
      exit_code (main_run none false false "/w" [⟨"b.png", true⟩] 0 (.exited false))
        = 0) :=
  ⟨by decide, C3_failed_apply none "/w" [⟨"b.png", true⟩] 0 (by decide)⟩

/-- C4: No-candidates terminal state — with an empty candidate pool the run
selects nothing, leaves the cache untouched, sends exactly one sticky
(resident, `i32::MAX` timeout) warning notification, and exits with status
0. -/
theorem C4_no_candidates (cache : Option String) (dir : String)
    (entries : List DirEntry) (sample : Nat) (outcome : ExecOutcome)
    (he : get_possible_wallpapers (cache.getD "") dir entries = []) :
    main_run cache false false dir entries sample outcome =
      .exit0 [send_notification ("No images found in " ++ dir) "dialog-warning" true]
        cache ∧
    (send_notification ("No images found in " ++ dir) "dialog-warning" true).resident
        = true ∧
    (send_notification ("No images found in " ++ dir) "dialog-warning" true).timeout
        = I32_MAX ∧
    exit_code (main_run cache false false dir entries sample outcome) = 0 := by
  refine ⟨main_run_empty cache dir entries sample outcome he, rfl, rfl, ?_⟩
  rw [main_run_empty cache dir entries sample outcome he]
  rfl

theorem C4_witness :
    get_possible_wallpapers ((some "/w/a.png").getD "") "/w" [⟨"a.png", true⟩] = [] ∧
    (main_run (some "/w/a.png") false false "/w" [⟨"a.png", true⟩] 0 (.exited true) =
        .exit0
          [send_notification ("No images found in " ++ "/w") "dialog-warning" true]
          (some "/w/a.png") ∧
      (send_notification ("No images found in " ++ "/w") "dialog-warning" true).resident
          = true ∧
      (send_notification ("No images found in " ++ "/w") "dialog-warning" true).timeout
          = I32_MAX ∧
      exit_code
          (main_run (some "/w/a.png") false false "/w" [⟨"a.png", true⟩] 0
            (.exited true)) = 0) :=
  ⟨by decide,
    C4_no_candidates (some "/w/a.png") "/w" [⟨"a.png", true⟩] 0 (.exited true)
      (by decide)⟩

/-- C9: Picker safety and membership — whenever the sampled value lies in the
uniform support `[0, |pool|)`, indexing succeeds (no panic) and the chosen
wallpaper is a member of the pool. -/
theorem C9_picker_safety (possible_wallpapers : List String) (sample : Nat)
    (hs : uniform_support possible_wallpapers.length sample) :
    ∃ w, choose_random_wallpaper possible_wallpapers sample = some w ∧
      w ∈ possible_wallpapers :=
  ⟨possible_wallpapers.get ⟨sample, hs⟩, List.get?_eq_get hs,
    List.get_mem possible_wallpapers sample hs⟩

theorem C9_witness :
    uniform_support (["/w/a.png"] : List String).length 0 ∧
    ∃ w, choose_random_wallpaper ["/w/a.png"] 0 = some w ∧
      w ∈ (["/w/a.png"] : List String) :=
  ⟨Nat.one_pos, C9_picker_safety ["/w/a.png"] 0 Nat.one_pos⟩

/-- `dropWhile` does nothing on a concatenation whose (nonempty) first part
falsifies the predicate everywhere. -/
theorem dropWhile_append_head (xs ys : List Char) (p : Char → Bool)
    (hne : xs ≠ []) (hx : ∀ c ∈ xs, p c = false) :
    (xs ++ ys).dropWhile p = xs ++ ys := by
  cases xs with
  | nil => exact absurd rfl hne
  | cons a as =>
    rw [List.cons_append]
    exact List.dropWhile_cons_of_neg (by simp [hx a (List.mem_cons_self a as)])

/-- `takeWhile` keeps exactly a prefix that satisfies the predicate everywhere
when the next element falsifies it. -/
theorem takeWhile_append_stop (xs ys : List Char) (p : Char → Bool) (y : Char)
    (hx : ∀ c ∈ xs, p c = true) (hy : p y = false) :
    (xs ++ y :: ys).takeWhile p = xs := by
  induction xs with
  | nil => exact List.takeWhile_cons_of_neg (by simp [hy])
  | cons a as ih =>
    rw [List.cons_append,
      List.takeWhile_cons_of_pos (hx a (List.mem_cons_self a as)),
      ih fun c hc => hx c (List.mem_cons_of_mem a hc)]

/-- Joining a directory with a well-formed entry name yields a path whose file
name is exactly that entry name. -/
theorem fileName_entryPath (dir name : String) (h : validEntryName name) :
    fileName? (dir ++ "/" ++ name) = some name := by
  obtain ⟨hne, hdot, hdotdot, hsl⟩ := h
  have hnedata : name.data ≠ [] := fun hh => hne (String.ext hh)
  have hdata : (dir ++ "/" ++ name).data.reverse =
      name.data.reverse ++ '/' :: dir.data.reverse := by
    simp [String.data_append]
  have hdrop : ∀ c ∈ name.data.reverse, (c == '/') = false := by
    intro c hc
    rw [List.mem_reverse] at hc
    exact beq_eq_false_iff_ne.mpr fun hh => hsl (hh ▸ hc)
  have htake : ∀ c ∈ name.data.reverse, (c != '/') = true := by
    intro c hc
    rw [List.mem_reverse] at hc
    exact bne_iff_ne.mpr fun hh => hsl (hh ▸ hc)
  have hrevne : name.data.reverse ≠ [] := by
    simpa using hnedata
  unfold fileName?
  rw [hdata, dropWhile_append_head _ _ _ hrevne hdrop,
    takeWhile_append_stop _ _ _ _ htake (by simp), List.reverse_reverse]
  rw [if_neg (by
    push_neg
    exact ⟨hnedata, fun hh => hdot (String.ext hh),
      fun hh => hdotdot (String.ext hh)⟩)]

/-- C10: File-name extraction never fails on scanner output — every candidate
path comes from joining the directory with a well-formed entry name, so
`get_file_name` always succeeds (the fatal branch is unreachable). -/
theorem C10_file_name_total (previous_wallpaper dir : String)
    (entries : List DirEntry)
    (hvalid : ∀ e ∈ entries, validEntryName e.name) :
    ∀ p ∈ get_possible_wallpapers previous_wallpaper dir entries,
      get_file_name p ≠ none := by
  intro p hp
  obtain ⟨e, he, _, rfl, _⟩ := mem_qualifying_images (List.mem_of_mem_filter hp)
  rw [get_file_name, entryPath, fileName_entryPath dir e.name (hvalid e he)]
  simp

theorem C10_witness :
    (∀ e ∈ [DirEntry.mk "a.png" true], validEntryName e.name) ∧
    ("/w/a.png" ∈ get_possible_wallpapers "" "/w" [⟨"a.png", true⟩] ∧
      get_file_name "/w/a.png" ≠ none) :=
  ⟨by decide,
    by decide,
    C10_file_name_total "" "/w" [⟨"a.png", true⟩] (by decide) "/w/a.png"
      (by decide)⟩
